import Mathlib

/-!
Verification of the kiraboshi playback controller (`src/audio/audio.rs`)
and playlist advance (`src/player/player.rs`).

Tracks are identified by their path; we model paths as natural numbers.
Times (positions, durations) are modelled as rationals, volumes and
decibel gains as reals (the source uses `f64`/`f32`).

The audio backend (the kira crate: `AudioManager`, `StaticSoundHandle`,
`PlaybackState`) is external to the repository; it is modelled from the
spec: commands are synchronous and near-instant, a pause/stop request
moves the stream through a transitional Pausing/Stopping state, seeking
clamps the playback head to [0, duration], and transport commands issued
against a stream that has already fully stopped are benign no-ops.
-/

/-- Backend playback states, mirroring `kira::sound::PlaybackState` as used
by `audio.rs` (`Playing`, `Pausing`, `Paused`, `Resuming`, `Stopping`,
`Stopped`). -/
inductive PlaybackState where
  | playing
  | pausing
  | paused
  | resuming
  | stopping
  | stopped
  deriving DecidableEq, Repr

/-- Modelled from the spec: the backend stream handle
(`kira::StaticSoundHandle`, not part of this repository). It carries the
backend-reported playback state, the playback head position, the decoded
duration and the stream volume (in dB). -/
structure StreamHandle where
  state : PlaybackState
  position : ℚ
  duration : ℚ
  volume : ℝ

namespace StreamHandle

/-- Modelled from the spec: a pause request puts a live stream into the
transitional Pausing state; against an already fully stopped stream it is
a benign no-op. -/
def pause (h : StreamHandle) : StreamHandle :=
  if h.state = .stopped then h else { h with state := .pausing }

/-- Modelled from the spec: a resume request puts a live stream into the
transitional Resuming state; against an already fully stopped stream it is
a benign no-op. -/
def resume (h : StreamHandle) : StreamHandle :=
  if h.state = .stopped then h else { h with state := .resuming }

/-- Modelled from the spec: a stop request puts a live stream into the
transitional Stopping state; a fully stopped stream stays stopped. -/
def stop (h : StreamHandle) : StreamHandle :=
  if h.state = .stopped then h else { h with state := .stopping }

/-- Modelled from the spec: seeking relocates the playback head, clamped
to [0, duration]; against an already fully stopped stream it is a benign
no-op. -/
def seekTo (h : StreamHandle) (p : ℚ) : StreamHandle :=
  if h.state = .stopped then h
  else { h with position := max 0 (min p h.duration) }

/-- Modelled from the spec: set the stream's volume (dB gain). -/
def setVolume (h : StreamHandle) (db : ℝ) : StreamHandle :=
  { h with volume := db }

end StreamHandle

/-- Modelled from the spec: the environment the engine calls into.
`decode` is the resource loader (`StaticSoundData::from_file`), returning
the decoded duration or a load failure; `canPlay` tells whether
`manager.play` succeeds (it can fail on backend resource exhaustion). -/
structure AudioBackend where
  decode : ℕ → Option ℚ
  canPlay : Bool

/-- The playback controller state, from `struct AudioEngine` in
`src/audio/audio.rs` (the `manager` field is represented by the
`AudioBackend` environment passed to the operations). -/
structure AudioEngine where
  current_handle : Option StreamHandle
  current_file : Option ℕ
  current_volume : ℝ
  duration : ℚ
  stopped : Bool

namespace AudioEngine

/-- `AudioEngine::play_song`: stop and discard any existing stream, decode
the resource (failure aborts with an error), cache the duration, start
playback (failure aborts with an error), apply the stored volume, record
the new handle and file, and clear the stopped flag. -/
def play_song (env : AudioBackend) (path : ℕ) (e : AudioEngine) :
    Except String Unit × AudioEngine :=
  let e0 := { e with current_handle := none }
  match env.decode path with
  | none => (.error "Failed to load audio file", e0)
  | some d =>
    let e1 := { e0 with duration := d }
    if env.canPlay then
      let h : StreamHandle :=
        { state := .playing, position := 0, duration := d,
          volume := e.current_volume }
      (.ok (), { e1 with current_handle := some h,
                         current_file := some path, stopped := false })
    else (.error "Failed to play audio", e1)

/-- `AudioEngine::play`: resume from the logical Stopped state by rewinding
then resuming; otherwise dispatch on the backend-reported state (resume
when paused, re-load the remembered file when the backend already fully
stopped); with no stream, re-load the remembered file if any. -/
def play (env : AudioBackend) (e : AudioEngine) : AudioEngine :=
  match e.current_handle with
  | some h =>
    if e.stopped then
      { e with current_handle := some ((h.seekTo 0).resume), stopped := false }
    else
      match h.state with
      | .paused | .pausing => { e with current_handle := some h.resume }
      | .stopped | .stopping =>
        match e.current_file with
        | some path => (play_song env path e).2
        | none => e
      | _ => e
  | none =>
    match e.current_file with
    | some path => (play_song env path e).2
    | none => e

/-- `AudioEngine::pause`: request a pause on the stream, if any. -/
def pause (e : AudioEngine) : AudioEngine :=
  match e.current_handle with
  | some h => { e with current_handle := some h.pause }
  | none => e

/-- `AudioEngine::stop`: if a stream exists, request a pause, rewind to 0
and set the logical stopped flag; otherwise do nothing. -/
def stop (e : AudioEngine) : AudioEngine :=
  match e.current_handle with
  | some h =>
    { e with current_handle := some ((h.pause).seekTo 0), stopped := true }
  | none => e

/-- `AudioEngine::unload`: stop and discard the stream, clear the
remembered file, reset the cached duration and the stopped flag. -/
def unload (e : AudioEngine) : AudioEngine :=
  { e with current_handle := none, current_file := none,
           duration := 0, stopped := false }

/-- The gain computation of `AudioEngine::set_volume`, with the logarithm
abstracted: `20 * log10(v)` for positive `v`, else the −80 dB silence
floor. -/
def volumeToDbWith (log10 : ℝ → ℝ) (v : ℚ) : ℝ :=
  if 0 < v then 20 * log10 (v : ℝ) else -80

/-- The gain computation of `AudioEngine::set_volume` with the real base-10
logarithm. -/
noncomputable def volumeToDb (v : ℚ) : ℝ :=
  volumeToDbWith (Real.logb 10) v

/-- `AudioEngine::set_volume`: convert the linear volume to a dB gain,
store it, and apply it to the active stream, if any. -/
noncomputable def set_volume (v : ℚ) (e : AudioEngine) : AudioEngine :=
  { e with current_volume := volumeToDb v,
           current_handle := e.current_handle.map (·.setVolume (volumeToDb v)) }

/-- `AudioEngine::seek`: with a stream, seek it; with no stream but a
remembered file, re-load it and, on success, seek then immediately pause
the fresh stream. -/
def seek (env : AudioBackend) (p : ℚ) (e : AudioEngine) : AudioEngine :=
  match e.current_handle with
  | some h => { e with current_handle := some (h.seekTo p) }
  | none =>
    match e.current_file with
    | some path =>
      match play_song env path e with
      | (.ok _, e1) =>
        { e1 with current_handle :=
            e1.current_handle.map (fun h => (h.seekTo p).pause) }
      | (.error _, e1) => e1
    | none => e

/-- `AudioEngine::is_playing`: false whenever the logical stopped flag is
set; otherwise true iff the backend reports Playing or Resuming. -/
def is_playing (e : AudioEngine) : Bool :=
  if e.stopped then false
  else
    match e.current_handle with
    | some h => h.state = .playing ∨ h.state = .resuming
    | none => false

/-- `AudioEngine::get_position`: the backend-reported position, 0 with no
stream. -/
def get_position (e : AudioEngine) : ℚ :=
  match e.current_handle with
  | some h => h.position
  | none => 0

/-- `AudioEngine::get_duration`: the cached duration. -/
def get_duration (e : AudioEngine) : ℚ :=
  e.duration

/-- `AudioEngine::is_finished`: true iff the backend reports Stopped or
Stopping; false with no stream. -/
def is_finished (e : AudioEngine) : Bool :=
  match e.current_handle with
  | some h => h.state = .stopped ∨ h.state = .stopping
  | none => false

end AudioEngine

/-- The loop policy, from `enum LoopMode` in `src/player/player.rs`. -/
inductive LoopMode where
  | Off
  | One
  | All
  deriving DecidableEq, Repr

namespace KiraboshiApp

/-- The track-selection logic of `KiraboshiApp::play_next` in
`src/player/player.rs`: which track, if any, the advance plays.
Empty playlist: none. LoopMode One: the current file (none if no current
file). Shuffle: filter the playlist down to the candidates (entries
different from the current file, or everything when the playlist has
exactly one entry) and pick one uniformly at random — the random draw of
`candidates.choose(&mut rand::rng())` is modelled from the spec as an
injected index `k`, reduced modulo the candidate count. Sequential: find
the current file's first index; play the next index if it exists, else
wrap to index 0 when LoopMode is All, else none. -/
def select_next (playlist : List ℕ) (loop_mode : LoopMode) (shuffle : Bool)
    (current : Option ℕ) (k : ℕ) : Option ℕ :=
  if playlist = [] then none
  else if loop_mode = .One then current
  else if shuffle then
    let candidates := playlist.filter
      (fun p => current != some p || playlist.length == 1)
    candidates.get? (k % candidates.length)
  else
    match current with
    | none => none
    | some c =>
      match playlist.findIdx? (fun p => p == c) with
      | none => none
      | some idx =>
        if idx + 1 < playlist.length then playlist.get? (idx + 1)
        else if loop_mode = .All then playlist.get? 0
        else none

/-- `KiraboshiApp::play_next`: the current file is read from the engine;
the selected track (if any) is handed to `AudioEngine::play_song`, whose
result is discarded; with no selection the engine is untouched. -/
def play_next (env : AudioBackend) (playlist : List ℕ)
    (loop_mode : LoopMode) (shuffle : Bool) (k : ℕ)
    (e : AudioEngine) : AudioEngine :=
  match select_next playlist loop_mode shuffle e.current_file k with
  | some t => (AudioEngine.play_song env t e).2
  | none => e

end KiraboshiApp

/-! Concrete fixtures used by witnesses and counterexamples. -/

/-- A backend where every resource fails to decode. -/
def envFail : AudioBackend := ⟨fun _ => none, true⟩

/-- A backend where every resource decodes to a 10-second stream. -/
def envOk : AudioBackend := ⟨fun _ => some 10, true⟩

/-- A live stream handle, playing at position 5 of a 30-second track. -/
def hPlaying : StreamHandle := ⟨.playing, 5, 30, 0⟩

/-- A stream handle whose backend state is fully stopped (track finished),
its playback head left at position 5. -/
def hDone : StreamHandle := ⟨.stopped, 5, 30, 0⟩

/-- An empty engine: nothing loaded. -/
def eEmpty : AudioEngine := ⟨none, none, 0, 0, false⟩

/-- An engine playing track 7 at position 5. -/
def ePlaying : AudioEngine := ⟨some hPlaying, some 7, 0, 30, false⟩

/-- An engine whose stream has already fully stopped on the backend side. -/
def eDone : AudioEngine := ⟨some hDone, some 7, 0, 30, false⟩

/-- An engine with no stream but a remembered file (track 7). -/
def eRemembered : AudioEngine := ⟨none, some 7, 0, 0, false⟩

/-- An engine with no stream but a remembered file (track 9). -/
def eRemembered9 : AudioEngine := ⟨none, some 9, 0, 0, false⟩

/-- C9: with no stream handle, every read-only accessor returns its safe
default: position 0, not playing, and — crucially for playlist advance —
not finished. -/
theorem C9_empty_accessor_defaults (e : AudioEngine)
    (h : e.current_handle = none) :
    e.get_position = 0 ∧ e.is_playing = false ∧ e.is_finished = false := by
  refine ⟨?_, ?_, ?_⟩ <;>
    simp [AudioEngine.get_position, AudioEngine.is_playing,
      AudioEngine.is_finished, h]

/-- Witness for C9 on the concrete empty engine. -/
theorem C9_witness :
    eEmpty.get_position = 0 ∧ eEmpty.is_playing = false ∧
      eEmpty.is_finished = false :=
  C9_empty_accessor_defaults eEmpty rfl

/-- C3: from any state with a loaded, playing stream, `stop()` leaves the
stream in a state where `is_finished()` is false — the stream is paused
and rewound, never put into the backend Stopped/Stopping states, so a
just-issued stop is never read back as a finished-track event. -/
theorem C3_stop_not_finished (e : AudioEngine) (h : e.is_playing = true) :
    (e.stop).is_finished = false := by
  rcases e with ⟨ho, f, v, d, st⟩
  cases ho with
  | none => simp [AudioEngine.is_playing] at h
  | some h0 =>
    cases st <;>
      rcases h0 with ⟨s, pos, dur, vol⟩ <;> cases s <;>
        simp_all [AudioEngine.is_playing, AudioEngine.stop,
          AudioEngine.is_finished, StreamHandle.pause, StreamHandle.seekTo]

/-- Witness for C3 on the concrete playing engine. -/
theorem C3_witness : ePlaying.is_playing = true ∧
    (ePlaying.stop).is_finished = false :=
  ⟨by decide, C3_stop_not_finished ePlaying (by decide)⟩

/-- C4 (amended): whenever the backend stream has not already fully
stopped (including the no-stream case), `stop()` followed by `position()`
returns exactly 0: the pause and rewind commands are processed and the
playback head lands at 0. -/
theorem C4_stop_position_zero (e : AudioEngine)
    (h : ∀ h0, e.current_handle = some h0 → h0.state ≠ .stopped) :
    (e.stop).get_position = 0 := by
  rcases e with ⟨ho, f, v, d, st⟩
  cases ho with
  | none => simp [AudioEngine.stop, AudioEngine.get_position]
  | some h0 =>
    have hs := h h0 rfl
    rcases h0 with ⟨s, pos, dur, vol⟩
    simp only [AudioEngine.stop, AudioEngine.get_position,
      StreamHandle.pause, StreamHandle.seekTo]
    cases s <;> simp_all

/-- Witness for C4 on the concrete playing engine (position 5 before the
call, 0 after). -/
theorem C4_witness : (ePlaying.stop).get_position = 0 :=
  C4_stop_position_zero ePlaying (by intro h0 hh; cases hh; decide)

/-- Counterexample for C4 as stated: on an engine whose stream already
fully stopped on the backend side (playback head left at 5), the pause and
rewind issued by `stop()` are benign no-ops, and `position()` afterwards
reports 5, not 0. -/
theorem C4_counterexample : (eDone.stop).get_position ≠ 0 := by decide

/-- C2 (amended): for every loaded stream that has not already fully
stopped on the backend side, `seek(p)` relocates the playback head to `p`
clamped to [0, duration] — in particular never below 0 nor beyond the
duration — and changes neither the backend playback state of the stream
nor the logical stopped flag. -/
theorem C2_seek_clamps (env : AudioBackend) (p : ℚ) (e : AudioEngine)
    (h0 : StreamHandle) (hh : e.current_handle = some h0)
    (hs : h0.state ≠ .stopped) :
    (AudioEngine.seek env p e).current_handle =
      some { h0 with position := max 0 (min p h0.duration) } ∧
    (AudioEngine.seek env p e).stopped = e.stopped ∧
    (0 ≤ h0.duration →
      0 ≤ (AudioEngine.seek env p e).get_position ∧
        (AudioEngine.seek env p e).get_position ≤ h0.duration) := by
  rcases e with ⟨ho, f, v, d, st⟩
  cases hh
  refine ⟨?_, ?_, ?_⟩ <;>
    simp [AudioEngine.seek, AudioEngine.get_position, StreamHandle.seekTo, hs]

/-- Witness for C2: seeking the playing 30-second stream to 40 lands the
playback head at 30 and preserves the stopped flag. -/
theorem C2_witness :
    (AudioEngine.seek envOk 40 ePlaying).current_handle =
      some { hPlaying with position := max 0 (min 40 hPlaying.duration) } ∧
    (AudioEngine.seek envOk 40 ePlaying).stopped = ePlaying.stopped ∧
    (0 ≤ hPlaying.duration →
      0 ≤ (AudioEngine.seek envOk 40 ePlaying).get_position ∧
        (AudioEngine.seek envOk 40 ePlaying).get_position ≤
          hPlaying.duration) :=
  C2_seek_clamps envOk 40 ePlaying hPlaying rfl (by decide)

/-- Counterexample for C2 as stated: on a loaded stream that already fully
stopped (playback head at 5, duration 30), `seek(1)` is dropped by the
backend and the playback head stays at 5 instead of moving to the clamped
target 1. -/
theorem C2_counterexample :
    (AudioEngine.seek envOk 1 eDone).get_position ≠ max 0 (min 1 (30 : ℚ)) := by
  decide

/-- C1 (amended): when `play_song` fails, it returns a load/play error and
no session is created: afterwards no stream handle exists, the remembered
file and the stopped flag are exactly as before the call, and — when the
failure was a decode failure — the cached duration is also unchanged.
The prior stream handle, however, is torn down (stopped and discarded)
before the load is attempted, not preserved. -/
theorem C1_load_failure (env : AudioBackend) (t : ℕ) (e : AudioEngine)
    (h : (AudioEngine.play_song env t e).1 ≠ .ok ()) :
    (AudioEngine.play_song env t e).2.current_handle = none ∧
    (AudioEngine.play_song env t e).2.current_file = e.current_file ∧
    (AudioEngine.play_song env t e).2.stopped = e.stopped ∧
    (env.decode t = none →
      (AudioEngine.play_song env t e).2.duration = e.duration) := by
  rcases e with ⟨ho, f, v, d, st⟩
  simp only [AudioEngine.play_song] at *
  cases hdec : env.decode t with
  | none => simp [hdec]
  | some d2 =>
    cases hcp : env.canPlay with
    | true => simp [hdec, hcp] at h
    | false => simp [hdec, hcp]

/-- Witness for C1: a decode failure on the playing engine leaves the
remembered file, stopped flag and duration unchanged and no handle. -/
theorem C1_witness :
    (AudioEngine.play_song envFail 3 ePlaying).2.current_handle = none ∧
    (AudioEngine.play_song envFail 3 ePlaying).2.current_file =
      ePlaying.current_file ∧
    (AudioEngine.play_song envFail 3 ePlaying).2.stopped = ePlaying.stopped ∧
    (envFail.decode 3 = none →
      (AudioEngine.play_song envFail 3 ePlaying).2.duration =
        ePlaying.duration) :=
  C1_load_failure envFail 3 ePlaying (by simp [AudioEngine.play_song, envFail])

/-- Counterexample for C1 as stated: a failing `play_song` on an engine
that had a live stream does not leave the prior stream handle as it was —
the old stream is stopped and discarded before decoding is attempted, so
after the failure the handle slot is empty while before the call it held
a stream. -/
theorem C1_counterexample :
    (AudioEngine.play_song envFail 3 ePlaying).1 ≠ .ok () ∧
    (AudioEngine.play_song envFail 3 ePlaying).2.current_handle ≠
      ePlaying.current_handle := by
  constructor <;> simp [AudioEngine.play_song, envFail, ePlaying]

/-- C7 (amended): `seek(p)` with no stream but a remembered file whose
load succeeds ends in the logical Paused state — a stream exists, the
stopped flag is clear, `is_playing` is false, `is_finished` is false —
with the playback head at `p` clamped to [0, duration], not at `p`
itself when `p` lies outside the track. -/
theorem C7_seek_reload_pauses (env : AudioBackend) (p : ℚ) (t : ℕ) (d : ℚ)
    (e : AudioEngine) (hh : e.current_handle = none)
    (hf : e.current_file = some t) (hd : env.decode t = some d)
    (hp : env.canPlay = true) :
    (AudioEngine.seek env p e).is_playing = false ∧
    (AudioEngine.seek env p e).stopped = false ∧
    (AudioEngine.seek env p e).current_handle.isSome = true ∧
    (AudioEngine.seek env p e).get_position = max 0 (min p d) ∧
    (AudioEngine.seek env p e).is_finished = false := by
  rcases e with ⟨ho, f, v, dur, st⟩
  cases hh
  cases hf
  simp [AudioEngine.seek, AudioEngine.play_song, hd, hp,
    AudioEngine.is_playing, AudioEngine.get_position, AudioEngine.is_finished,
    StreamHandle.seekTo, StreamHandle.pause]

/-- Witness for C7: scrubbing to 4 with only a remembered track loads it,
seeks to 4 and pauses. -/
theorem C7_witness :
    (AudioEngine.seek envOk 4 eRemembered).is_playing = false ∧
    (AudioEngine.seek envOk 4 eRemembered).stopped = false ∧
    (AudioEngine.seek envOk 4 eRemembered).current_handle.isSome = true ∧
    (AudioEngine.seek envOk 4 eRemembered).get_position = max 0 (min 4 10) ∧
    (AudioEngine.seek envOk 4 eRemembered).is_finished = false :=
  C7_seek_reload_pauses envOk 4 7 10 eRemembered rfl rfl rfl rfl

/-- Counterexample for C7 as stated: with a remembered 10-second track and
no stream, `seek(11)` ends paused at the clamped position 10, not at the
requested position 11. -/
theorem C7_counterexample :
    (AudioEngine.seek envOk 11 eRemembered).get_position ≠ 11 := by decide

/-- C5: shuffle advance. With at least two tracks and a current track in
the playlist, the candidate pool is exactly the playlist with every entry
equal to the current track removed, and the pick is uniform over that
pool (the injected random index selects each candidate equally often as
it ranges over residues); consequently any selected track belongs to the
playlist and is never the current track. With a one-entry playlist the
sole track is eligible: it is always the selection. -/
theorem C5_shuffle_excludes_current (playlist : List ℕ) (lm : LoopMode)
    (c k : ℕ) (h2 : 2 ≤ playlist.length) (hlm : lm ≠ .One)
    (_hc : c ∈ playlist) :
    (KiraboshiApp.select_next playlist lm true (some c) k =
      (playlist.filter (fun p => p != c)).get?
        (k % (playlist.filter (fun p => p != c)).length)) ∧
    (∀ t, KiraboshiApp.select_next playlist lm true (some c) k = some t →
      t ∈ playlist ∧ t ≠ c) ∧
    (∀ t lm2 k2,
      KiraboshiApp.select_next [t] lm2 true (some t) k2 = some t) := by
  have hne : playlist ≠ [] := by
    intro hnil
    simp [hnil] at h2
  have hfeq : playlist.filter (fun p => some c != some p ||
      playlist.length == 1) = playlist.filter (fun p => p != c) := by
    apply List.filter_congr
    intro p _
    have hlen : playlist.length ≠ 1 := by omega
    have h1 : (playlist.length == 1) = false := by simp [hlen]
    simp [bne, h1, eq_comm]
  have hsel : KiraboshiApp.select_next playlist lm true (some c) k =
      (playlist.filter (fun p => p != c)).get?
        (k % (playlist.filter (fun p => p != c)).length) := by
    simp [KiraboshiApp.select_next, hne, hlm, hfeq]
  refine ⟨hsel, ?_, ?_⟩
  · intro t ht
    rw [hsel] at ht
    have hmem := List.get?_mem ht
    have := List.mem_filter.mp hmem
    refine ⟨this.1, ?_⟩
    simpa using this.2
  · intro t lm2 k2
    cases lm2 <;> simp [KiraboshiApp.select_next, Nat.mod_one]

/-- Witness for C5 on the playlist [1, 2, 3] with current track 2 and
random index 5. -/
theorem C5_witness :
    (KiraboshiApp.select_next [1, 2, 3] .Off true (some 2) 5 =
      ([1, 2, 3].filter (fun p => p != 2)).get?
        (5 % ([1, 2, 3].filter (fun p => p != 2)).length)) ∧
    (∀ t, KiraboshiApp.select_next [1, 2, 3] .Off true (some 2) 5 = some t →
      t ∈ [1, 2, 3] ∧ t ≠ 2) ∧
    (∀ t lm2 k2,
      KiraboshiApp.select_next [t] lm2 true (some t) k2 = some t) :=
  C5_shuffle_excludes_current [1, 2, 3] .Off 2 5 (by decide) (by decide)
    (by decide)

/-- C6: sequential advance with the current track at the last playlist
index. With LoopMode Off, `play_next` performs no action at all — the
engine is returned unchanged. With LoopMode All, the selection wraps to
playlist index 0, and when that head track loads successfully it becomes
the current file. -/
theorem C6_sequential_last_index (env : AudioBackend) (playlist : List ℕ)
    (c k : ℕ) (e : AudioEngine) (hf : e.current_file = some c)
    (hne : playlist ≠ [])
    (hidx : playlist.findIdx? (fun p => p == c) =
      some (playlist.length - 1)) :
    (KiraboshiApp.play_next env playlist .Off false k e = e) ∧
    (KiraboshiApp.select_next playlist .All false (some c) k =
      playlist.get? 0) ∧
    (∀ t d, playlist.head? = some t → env.decode t = some d →
      env.canPlay = true →
      (KiraboshiApp.play_next env playlist .All false k e).current_file =
        some t) := by
  have hlen : 1 ≤ playlist.length := by
    cases playlist with
    | nil => exact absurd rfl hne
    | cons a l => simp
  have hnotlt : ¬ (playlist.length - 1) + 1 < playlist.length := by omega
  have hoff : KiraboshiApp.select_next playlist .Off false (some c) k =
      none := by
    simp [KiraboshiApp.select_next, hne, hidx, hnotlt]
  have hall : KiraboshiApp.select_next playlist .All false (some c) k =
      playlist.get? 0 := by
    simp [KiraboshiApp.select_next, hne, hidx, hnotlt]
  refine ⟨?_, hall, ?_⟩
  · simp [KiraboshiApp.play_next, hf, hoff]
  · intro t d ht hd hp
    have hget : playlist[0]? = some t := by
      cases playlist <;> simp_all
    simp [KiraboshiApp.play_next, hf, hall, hget,
      AudioEngine.play_song, hd, hp]

/-- Witness for C6 on the playlist [4, 9] with current track 9 (the last
index) and a backend that decodes everything. -/
theorem C6_witness :
    (KiraboshiApp.play_next envOk [4, 9] .Off false 0 eRemembered9 =
      eRemembered9) ∧
    (KiraboshiApp.select_next [4, 9] .All false (some 9) 0 =
      [4, 9].get? 0) ∧
    (∀ t d, [4, 9].head? = some t → envOk.decode t = some d →
      envOk.canPlay = true →
      (KiraboshiApp.play_next envOk [4, 9] .All false 0
        eRemembered9).current_file = some t) :=
  C6_sequential_last_index envOk [4, 9] 9 0 eRemembered9 rfl (by decide)
    (by decide)

/-- C8: for linear volumes in (0, 2], `set_volume(v)` stores the derived
gain 20·log10(v) dB, this stored gain is strictly increasing in the linear
volume, and `set_volume(0)` stores the −80 dB silence floor. -/
theorem C8_volume_gain_monotone (e : AudioEngine) (v1 v2 : ℚ)
    (h1 : 0 < v1) (h12 : v1 < v2) (_h2 : v2 ≤ 2) :
    (AudioEngine.set_volume v1 e).current_volume =
      20 * Real.logb 10 (v1 : ℝ) ∧
    (AudioEngine.set_volume v1 e).current_volume <
      (AudioEngine.set_volume v2 e).current_volume ∧
    (AudioEngine.set_volume 0 e).current_volume = -80 := by
  have h1' : (0 : ℝ) < (v1 : ℝ) := by exact_mod_cast h1
  have h12' : (v1 : ℝ) < (v2 : ℝ) := by exact_mod_cast h12
  have h2pos : 0 < v2 := lt_trans h1 h12
  refine ⟨?_, ?_, ?_⟩
  · simp [AudioEngine.set_volume, AudioEngine.volumeToDb,
      AudioEngine.volumeToDbWith, h1]
  · simp only [AudioEngine.set_volume, AudioEngine.volumeToDb,
      AudioEngine.volumeToDbWith, if_pos h1, if_pos h2pos]
    have hlog : Real.logb 10 (v1 : ℝ) < Real.logb 10 (v2 : ℝ) :=
      Real.logb_lt_logb (by norm_num) h1' h12'
    linarith
  · simp [AudioEngine.set_volume, AudioEngine.volumeToDb,
      AudioEngine.volumeToDbWith]

/-- Witness for C8 at the concrete volumes 1 and 2. -/
theorem C8_witness :
    (AudioEngine.set_volume 1 eEmpty).current_volume =
      20 * Real.logb 10 ((1 : ℚ) : ℝ) ∧
    (AudioEngine.set_volume 1 eEmpty).current_volume <
      (AudioEngine.set_volume 2 eEmpty).current_volume ∧
    (AudioEngine.set_volume 0 eEmpty).current_volume = -80 :=
  C8_volume_gain_monotone eEmpty 1 2 (by norm_num) (by norm_num) (by norm_num)

/-- C10: `set_volume` is total over all linear inputs: for every input at
or below 0 — including negative values outside the documented range — the
stored gain is the −80 dB silence floor, and the value is independent of
the logarithm function, which the else branch never evaluates. -/
theorem C10_nonpositive_volume_floor (e : AudioEngine) (v : ℚ)
    (h : v ≤ 0) :
    (AudioEngine.set_volume v e).current_volume = -80 ∧
    (∀ f : ℝ → ℝ, AudioEngine.volumeToDbWith f v = -80) := by
  have hnlt : ¬ 0 < v := not_lt.mpr h
  constructor
  · simp [AudioEngine.set_volume, AudioEngine.volumeToDb,
      AudioEngine.volumeToDbWith, hnlt]
  · intro f
    simp [AudioEngine.volumeToDbWith, hnlt]

/-- Witness for C10 at the out-of-range input −1. -/
theorem C10_witness :
    (AudioEngine.set_volume (-1) eEmpty).current_volume = -80 ∧
    (∀ f : ℝ → ℝ, AudioEngine.volumeToDbWith f (-1) = -80) :=
  C10_nonpositive_volume_floor eEmpty (-1) (by norm_num)
